import Mathlib

/-!
Shallow embedding of the order-management core of the simon-backend
repository: the Order Lifecycle Engine (`src/domain/service/OrderService.js`)
and the Session Token Manager (`src/utils/jwt.js`).

Each service operation is embedded as a pure Lean function.  The persistence
collaborator (`OrderRepository`) is modelled as an oracle record holding the
results its calls would return; every operation returns its outcome together
with the list of collaborator calls it issued, so that "no write was
attempted" is the statement that the trace contains no such call.
-/

namespace Simon

/-- A JavaScript value as used for identifiers and quantities in the service:
`null`/`undefined`, a number, or a string.  Needed because the source decides
several branches by JS truthiness (`!x`, `x ? a : b`). -/
inductive JsVal where
  | null : JsVal
  | num : Int → JsVal
  | str : String → JsVal
  deriving DecidableEq, Repr

/-- JS truthiness of a `JsVal`: `null`/`undefined`, `0` and `""` are falsy. -/
def jsTruthy : JsVal → Bool
  | JsVal.null => false
  | JsVal.num n => n ≠ 0
  | JsVal.str s => s ≠ ""

/-- Modelled from the spec: the Status Vocabulary, `Object.values(state.Pedido)`
in the source.  `utils/state.js` is not among the provided sources; the spec
gives the example membership (received, in-preparation, ready, delivered,
cancelled) and says the exact membership is a configuration constant. -/
def validStates : List String :=
  ["received", "in-preparation", "ready", "delivered", "cancelled"]

/-- Modelled from the spec: the error taxonomy.  The exception classes
(`AppError`, `NotFoundError` under `src/domain/exception/`) are not among the
provided sources.  Per the spec, `ApplicationError` carries a human-readable
message and an optional explicit status code, HTTP-equivalent 500 unless a
specific code is attached; `NotFound` carries a message (404 by convention,
the source defaults generically). -/
inductive JsError where
  | appError (message : String) (statusCode : Nat)
  | notFoundError (message : String)
  deriving DecidableEq, Repr

/-- Construct an `AppError`; the default status code is 500 when the source
attaches none (modelled from the spec's taxonomy). -/
def AppError (message : String) (statusCode : Nat := 500) : JsError :=
  JsError.appError message statusCode

/-- Construct a `NotFoundError`. -/
def NotFoundError (message : String) : JsError :=
  JsError.notFoundError message

/-- A failure reported by the persistence collaborator, as observed by
`cancelOrder`'s catch block: a message and a possibly absent status code. -/
structure RepoFailure where
  message : String
  statusCode : Option Nat
  deriving DecidableEq, Repr

/-- JS `error.statusCode || 500`: absent or zero (falsy) becomes 500. -/
def orElse500 : Option Nat → Nat
  | none => 500
  | some n => if n = 0 then 500 else n

/-- A database row for an order, with the fields the spec's data model gives
an Order (identifier, customer name, status).  Row mapping itself is out of
scope plumbing. -/
structure Row where
  id : Nat
  nombre_cliente : String
  estado : String
  deriving DecidableEq, Repr

/-- Modelled from the spec: the Order domain object produced by
`Order.fromDB(row)`; `domain/models/OrderModel.js` is not among the provided
sources.  The spec's data model gives identifier, customer name and overall
status. -/
structure Order where
  id : Nat
  nombreCliente : String
  estado : String
  deriving DecidableEq, Repr

namespace Order

/-- Modelled from the spec: `Order.fromDB` maps a database row to an Order. -/
def fromDB (row : Row) : Order :=
  { id := row.id, nombreCliente := row.nombre_cliente, estado := row.estado }

end Order

/-- One item ("platillo") in a `createOrder` request; the source reads the two
fields `platilloId` and `cantidad` and tests them for truthiness, so each is a
`JsVal` (possibly absent, zero, negative, ...). -/
structure Platillo where
  platilloId : JsVal
  cantidad : JsVal
  deriving DecidableEq, Repr

/-- Opaque order-header data forwarded to the collaborator's create call. -/
structure OrderData where
  nombre_cliente : String
  deriving DecidableEq, Repr

/-- A call issued to the `OrderRepository` collaborator, recorded in the trace
an operation returns. -/
inductive RepoCall where
  | findAll (restaurantId : Nat)
  | findOrderById (id : Nat)
  | findPlatilloById (pedidoId platilloId : Nat)
  | updatePlatilloStatus (pedidoId platilloId : Nat) (estado : String)
  | updateStatusById (id : Nat) (estado : String)
  | create (orderData : OrderData) (platillos : List Platillo)
  | cancelOrder (pedidoId : Nat) (platilloId : JsVal)
  deriving DecidableEq, Repr

/-- The persistence collaborator as an oracle: the results its calls would
return in the scenario under consideration.  The engine does not implement it
(spec §6); an operation consults only the fields for the calls it makes. -/
structure OrderRepository where
  findAllResult : Option (List Row)
  findPlatilloResult : List Row
  updatePlatilloAffectedRows : Nat
  updateStatusResult : Row
  createResult : Row
  cancelResult : Except RepoFailure String
  deriving Repr

/-- Outcome of a service operation: either a raised error or a value, paired
with the list of collaborator calls issued, in order. -/
abbrev ServiceResult (α : Type) := Except JsError α × List RepoCall

namespace OrderService

/-- `OrderService.getAll(restaurantId)` (the spec's `listOrders`): calls
`OrderRepository.findAll`; throws `NotFoundError` when the result is absent or
empty, otherwise maps each row through `Order.fromDB`. -/
def getAll (restaurantId : Nat) (repo : OrderRepository) :
    ServiceResult (List Order) :=
  let trace := [RepoCall.findAll restaurantId]
  match repo.findAllResult with
  | none => (Except.error (NotFoundError "No se encontraron pedidos."), trace)
  | some rows =>
      if rows.length = 0 then
        (Except.error (NotFoundError "No se encontraron pedidos."), trace)
      else
        (Except.ok (rows.map Order.fromDB), trace)

/-- The invalid-status message built in both update operations:
`Estado inválido. Estados permitidos: ` + `validStates.join(", ")` + `.` -/
def invalidStateMessage : String :=
  "Estado inválido. Estados permitidos: " ++
    String.intercalate ", " validStates ++ "."

/-- `OrderService.updatePlatilloStatus(pedidoId, platilloId, estado)` (the
spec's `updateItemStatus`): validates `estado` against the vocabulary (throws
`AppError(msg, 400)` otherwise, before any collaborator call); looks the item
up (throws `NotFoundError` when no rows); issues the status write (throws
`AppError(msg, 500)` when zero rows were affected); returns a confirmation. -/
def updatePlatilloStatus (pedidoId platilloId : Nat) (estado : String)
    (repo : OrderRepository) : ServiceResult String :=
  if ¬ (estado ∈ validStates) then
    (Except.error (AppError invalidStateMessage 400), [])
  else
    let lookupTrace := [RepoCall.findPlatilloById pedidoId platilloId]
    if repo.findPlatilloResult.length = 0 then
      (Except.error (NotFoundError
        ("Platillo con ID " ++ toString platilloId ++
          " no encontrado en el pedido " ++ toString pedidoId ++ ".")),
        lookupTrace)
    else
      let fullTrace := lookupTrace ++
        [RepoCall.updatePlatilloStatus pedidoId platilloId estado]
      if repo.updatePlatilloAffectedRows = 0 then
        (Except.error
          (AppError "No se pudo actualizar el estado del platillo." 500),
          fullTrace)
      else
        (Except.ok "Estado actualizado correctamente.", fullTrace)

/-- `OrderService.updateOrderStatus(id, estado)`: validates `estado` against
the vocabulary — throwing `AppError` with NO explicit status code (so the
modelled default 500) — then delegates the write to
`OrderRepository.updateStatusById` and returns its result. -/
def updateOrderStatus (id : Nat) (estado : String)
    (repo : OrderRepository) : ServiceResult Row :=
  if ¬ (estado ∈ validStates) then
    (Except.error (AppError invalidStateMessage), [])
  else
    (Except.ok repo.updateStatusResult,
      [RepoCall.updateStatusById id estado])

/-- The per-item validation in `createOrder`: `platillos.forEach` throwing on
the first item with a falsy `platilloId` or falsy `cantidad`.  Returns the
error of the first violating item, if any. -/
def validatePlatillos : List Platillo → Option JsError
  | [] => none
  | p :: ps =>
      if ¬ (jsTruthy p.platilloId ∧ jsTruthy p.cantidad) then
        some (AppError "Cada platillo debe incluir platilloId y cantidad.")
      else
        validatePlatillos ps

/-- `OrderService.createOrder(orderData, platillos)`: throws `AppError` when
the list is absent or empty; then validates items fail-fast; then delegates
to `OrderRepository.create`. -/
def createOrder (orderData : OrderData) (platillos : Option (List Platillo))
    (repo : OrderRepository) : ServiceResult Row :=
  match platillos with
  | none =>
      (Except.error (AppError "El pedido debe incluir al menos un platillo."),
        [])
  | some items =>
      if items.length = 0 then
        (Except.error
          (AppError "El pedido debe incluir al menos un platillo."), [])
      else
        match validatePlatillos items with
        | some e => (Except.error e, [])
        | none =>
            (Except.ok repo.createResult,
              [RepoCall.create orderData items])

/-- `OrderService.cancelOrder(pedidoId, platilloId = null)`: forwards both
arguments unchanged to `OrderRepository.cancelOrder`; a collaborator failure
is wrapped in `AppError` whose message is
`Error al cancelar el ` + (`platillo` if `platilloId` is truthy else
`pedido`) + `: ` + the collaborator's message, with status code
`error.statusCode || 500`. -/
def cancelOrder (pedidoId : Nat) (platilloId : JsVal := JsVal.null)
    (repo : OrderRepository) : ServiceResult String :=
  let trace := [RepoCall.cancelOrder pedidoId platilloId]
  match repo.cancelResult with
  | Except.ok confirmation => (Except.ok confirmation, trace)
  | Except.error e =>
      (Except.error (AppError
        ("Error al cancelar el " ++
          (if jsTruthy platilloId then "platillo" else "pedido") ++
          ": " ++ e.message)
        (orElse500 e.statusCode)), trace)

end OrderService

/-- Modelled from the spec: the configuration record (`config/config.js` is
not among the provided sources).  The Session Token Manager is parameterized
by a shared secret and an expiration policy supplied by configuration; the
spec's own design note directs passing it explicitly rather than reading
ambient state. -/
structure Config where
  jwtSecret : String
  jwtExpiration : Nat
  deriving DecidableEq, Repr

/-- Modelled from the spec: a signed session token as produced by the
external `jsonwebtoken` library (`jwt.sign`): the caller-supplied claims
embedded verbatim, an expiration instant (creation time plus the configured
duration), and a signature binding payload and expiry under the secret. -/
structure Token where
  payload : List (String × String)
  exp : Nat
  sig : String × List (String × String) × Nat
  deriving DecidableEq, Repr

/-- The Unauthorized-equivalent failure of token verification. -/
inductive JwtFailure where
  | unauthorized
  deriving DecidableEq, Repr

/-- `createJWT(data)`: signs the claims with `config.auth.jwtSecret` and the
configured `expiresIn`.  The standard signed-token scheme is modelled by a
signature that is exactly the (secret, payload, exp) triple, which an
adversary without the secret cannot produce. -/
def createJWT (cfg : Config) (data : List (String × String)) (now : Nat) :
    Token :=
  { payload := data
    exp := now + cfg.jwtExpiration
    sig := (cfg.jwtSecret, data, now + cfg.jwtExpiration) }

/-- `verifyJWT(token)` (`jwt.verify`): checks the signature under the
configured secret and that the expiration has not elapsed; returns the
payload, or an Unauthorized failure when either check fails. -/
def verifyJWT (cfg : Config) (token : Token) (now : Nat) :
    Except JwtFailure (List (String × String)) :=
  if token.sig = (cfg.jwtSecret, token.payload, token.exp) ∧ now < token.exp
  then Except.ok token.payload
  else Except.error JwtFailure.unauthorized

/-- A cookie attached to the outgoing response by `res.cookie(name, value,
options)`, with the option fields the source sets. -/
structure SetCookie (α : Type) where
  name : String
  value : α
  httpOnly : Bool
  secure : Bool
  sameSite : String
  maxAge : Nat
  deriving Repr

/-- JS falsiness of `process.env.NODE_ENV`: unset, or the empty string. -/
def envFalsy : Option String → Bool
  | none => true
  | some s => s = ""

/-- `createCookie(res, name, value)`: `isProduction` is
`!process.env.NODE_ENV || process.env.NODE_ENV !== 'development'`; the cookie
is HTTP-only, secure exactly in production, SameSite `None` in production and
`Lax` otherwise, with `maxAge` the configured token expiration. -/
def createCookie (cfg : Config) (env : Option String) (name : String)
    {α : Type} (value : α) : SetCookie α :=
  let isProduction := envFalsy env || (env ≠ some "development")
  { name := name
    value := value
    httpOnly := true
    secure := isProduction
    sameSite := if isProduction then "None" else "Lax"
    maxAge := cfg.jwtExpiration }

/-- `createJWTCookie(res, data)`: composition of `createJWT` and
`createCookie` under the fixed cookie name `token`. -/
def createJWTCookie (cfg : Config) (env : Option String)
    (data : List (String × String)) (now : Nat) : SetCookie Token :=
  createCookie cfg env "token" (createJWT cfg data now)

/-- The status code of the error an operation raised, if it raised an
`AppError`; `none` when it succeeded or raised another kind. -/
def raisedAppStatusCode {α : Type} : Except JsError α × List RepoCall → Option Nat
  | (Except.error (JsError.appError _ c), _) => some c
  | _ => none

/-- A concrete collaborator oracle: an empty store whose cancel call fails
with a message and no status code. -/
def emptyRepo : OrderRepository :=
  { findAllResult := some []
    findPlatilloResult := []
    updatePlatilloAffectedRows := 0
    updateStatusResult := { id := 1, nombre_cliente := "ana", estado := "received" }
    createResult := { id := 1, nombre_cliente := "ana", estado := "received" }
    cancelResult := Except.error { message := "db down", statusCode := none } }

/-- A concrete collaborator oracle: the item lookup finds one row but the
status write affects zero rows; cancellation fails with an explicit code. -/
def staleRepo : OrderRepository :=
  { findAllResult := some [{ id := 4, nombre_cliente := "bo", estado := "ready" }]
    findPlatilloResult := [{ id := 2, nombre_cliente := "bo", estado := "ready" }]
    updatePlatilloAffectedRows := 0
    updateStatusResult := { id := 4, nombre_cliente := "bo", estado := "ready" }
    createResult := { id := 4, nombre_cliente := "bo", estado := "ready" }
    cancelResult := Except.error { message := "conflict", statusCode := some 409 } }

/-- `validatePlatillos` reports the (fixed) item-validation error exactly when
some item has a falsy `platilloId` or falsy `cantidad`. -/
lemma validatePlatillos_eq_some (items : List Platillo)
    (h : ∃ p ∈ items, jsTruthy p.platilloId = false ∨ jsTruthy p.cantidad = false) :
    OrderService.validatePlatillos items =
      some (JsError.appError "Cada platillo debe incluir platilloId y cantidad." 500) := by
  induction items with
  | nil => simp at h
  | cons p ps ih =>
      obtain ⟨q, hq, hviol⟩ := h
      rw [List.mem_cons] at hq
      by_cases hp : jsTruthy p.platilloId = true ∧ jsTruthy p.cantidad = true
      · have hqs : q ∈ ps := by
          rcases hq with rfl | hqs
          · rcases hviol with hv | hv <;> simp [hp.1, hp.2] at hv
          · exact hqs
        simp only [OrderService.validatePlatillos, hp]
        simpa [hp] using ih ⟨q, hqs, hviol⟩
      · simp [OrderService.validatePlatillos, hp, AppError]

/-- C1 counterexample: `"bogus"` is not in the Status Vocabulary, yet
`updateOrderStatus` raises the invalid-status error with status code 500 —
the source attaches no explicit code there, so the modelled default applies —
not the HTTP-equivalent 400 the claim states. -/
theorem c1_counterexample :
    ("bogus" ∈ validStates) = False ∧
    raisedAppStatusCode (OrderService.updateOrderStatus 3 "bogus" emptyRepo) = some 500 ∧
    raisedAppStatusCode (OrderService.updateOrderStatus 3 "bogus" emptyRepo) ≠ some 400 := by
  refine ⟨by simp [validStates], ?_, ?_⟩ <;> decide

/-- C1 (amended): for every status string s outside the Status Vocabulary,
`updatePlatilloStatus` raises `AppError` with code 400 and `updateOrderStatus`
raises `AppError` with the default code 500, both with no collaborator call
(no lookup, no write); and whenever either operation succeeds, s was a member
of the vocabulary. -/
theorem c1_amended (s : String) (pid iid oid : Nat) (repo : OrderRepository) :
    (s ∉ validStates →
      (OrderService.updatePlatilloStatus pid iid s repo).1 =
        Except.error (JsError.appError OrderService.invalidStateMessage 400) ∧
      (OrderService.updatePlatilloStatus pid iid s repo).2 = [] ∧
      (OrderService.updateOrderStatus oid s repo).1 =
        Except.error (JsError.appError OrderService.invalidStateMessage 500) ∧
      (OrderService.updateOrderStatus oid s repo).2 = []) ∧
    (∀ v, (OrderService.updatePlatilloStatus pid iid s repo).1 = Except.ok v →
      s ∈ validStates) ∧
    (∀ r, (OrderService.updateOrderStatus oid s repo).1 = Except.ok r →
      s ∈ validStates) := by
  by_cases hs : s ∈ validStates
  · refine ⟨fun h => absurd hs h, fun v _ => hs, fun r _ => hs⟩
  · refine ⟨fun _ => ?_, ?_, ?_⟩
    · simp [OrderService.updatePlatilloStatus, OrderService.updateOrderStatus,
        hs, AppError]
    · intro v hv
      simp [OrderService.updatePlatilloStatus, hs, AppError] at hv
    · intro r hr
      simp [OrderService.updateOrderStatus, hs, AppError] at hr

/-- C1 witness: at the non-member status `"bogus"`, the item update raises
the 400-coded error with an empty call trace. -/
theorem c1_amended_witness :
    "bogus" ∉ validStates ∧
    (OrderService.updatePlatilloStatus 1 2 "bogus" emptyRepo).1 =
      Except.error (JsError.appError OrderService.invalidStateMessage 400) ∧
    (OrderService.updatePlatilloStatus 1 2 "bogus" emptyRepo).2 = [] :=
  ⟨by decide,
    ((c1_amended "bogus" 1 2 3 emptyRepo).1 (by decide)).1,
    ((c1_amended "bogus" 1 2 3 emptyRepo).1 (by decide)).2.1⟩

/-- C2 counterexample: an item with a present dish identifier and quantity
`-1` (negative, hence not positive, but JS-truthy) passes validation:
`createOrder` succeeds and issues the insert, instead of rejecting the item
as the claim states. -/
theorem c2_counterexample :
    (OrderService.createOrder { nombre_cliente := "ana" }
        (some [{ platilloId := JsVal.num 1, cantidad := JsVal.num (-1) }])
        emptyRepo).1 =
      Except.ok emptyRepo.createResult ∧
    (OrderService.createOrder { nombre_cliente := "ana" }
        (some [{ platilloId := JsVal.num 1, cantidad := JsVal.num (-1) }])
        emptyRepo).2 =
      [RepoCall.create { nombre_cliente := "ana" }
        [{ platilloId := JsVal.num 1, cantidad := JsVal.num (-1) }]] := by
  constructor <;> rfl

/-- C2 (amended): for every non-empty items list, if any item has a falsy
dish identifier or a falsy quantity (missing or zero), `createOrder` raises
the item-validation `AppError` before any insert is issued (empty call
trace), failing on the first violating item in list order; an item with zero
quantity is rejected, but an item with a negative quantity passes this
validation — the check is JS truthiness, not positivity. -/
theorem c2_amended (od : OrderData) (items : List Platillo)
    (repo : OrderRepository)
    (h : ∃ p ∈ items,
      jsTruthy p.platilloId = false ∨ jsTruthy p.cantidad = false) :
    (OrderService.createOrder od (some items) repo).1 =
      Except.error
        (JsError.appError "Cada platillo debe incluir platilloId y cantidad." 500) ∧
    (OrderService.createOrder od (some items) repo).2 = [] := by
  have hval := validatePlatillos_eq_some items h
  obtain ⟨p, hp, -⟩ := h
  have hne : items.length ≠ 0 := by
    cases items with
    | nil => simp at hp
    | cons a l => simp
  simp [OrderService.createOrder, hne, hval]

/-- C2 witness: an item with quantity `0` is rejected with no insert. -/
theorem c2_amended_witness :
    jsTruthy (JsVal.num 0) = false ∧
    (OrderService.createOrder { nombre_cliente := "ana" }
        (some [{ platilloId := JsVal.num 1, cantidad := JsVal.num 0 }])
        emptyRepo).1 =
      Except.error
        (JsError.appError "Cada platillo debe incluir platilloId y cantidad." 500) ∧
    (OrderService.createOrder { nombre_cliente := "ana" }
        (some [{ platilloId := JsVal.num 1, cantidad := JsVal.num 0 }])
        emptyRepo).2 = [] :=
  ⟨by decide,
    (c2_amended { nombre_cliente := "ana" }
      [{ platilloId := JsVal.num 1, cantidad := JsVal.num 0 }] emptyRepo
      ⟨_, List.mem_singleton.mpr rfl, Or.inr (by decide)⟩).1,
    (c2_amended { nombre_cliente := "ana" }
      [{ platilloId := JsVal.num 1, cantidad := JsVal.num 0 }] emptyRepo
      ⟨_, List.mem_singleton.mpr rfl, Or.inr (by decide)⟩).2⟩

/-- C3: `createOrder` with an absent or empty items list raises the
empty-order `AppError` and issues no collaborator call at all — in
particular the collaborator's create operation is never invoked. -/
theorem c3_createOrder_empty (od : OrderData)
    (platillos : Option (List Platillo)) (repo : OrderRepository)
    (h : platillos = none ∨ platillos = some []) :
    (OrderService.createOrder od platillos repo).1 =
      Except.error
        (JsError.appError "El pedido debe incluir al menos un platillo." 500) ∧
    (OrderService.createOrder od platillos repo).2 = [] := by
  rcases h with rfl | rfl <;>
    simp [OrderService.createOrder, AppError]

/-- C3 witness: the empty list is rejected with an empty call trace. -/
theorem c3_witness :
    (OrderService.createOrder { nombre_cliente := "ana" } (some []) emptyRepo).1 =
      Except.error
        (JsError.appError "El pedido debe incluir al menos un platillo." 500) ∧
    (OrderService.createOrder { nombre_cliente := "ana" } (some []) emptyRepo).2 = [] :=
  c3_createOrder_empty { nombre_cliente := "ana" } (some []) emptyRepo (Or.inr rfl)

/-- C4: for a vocabulary-member status, when the item lookup returns zero
rows, `updatePlatilloStatus` raises `NotFoundError` and its call trace is the
lookup alone — the status write is never issued. -/
theorem c4_item_not_found (pid iid : Nat) (s : String) (repo : OrderRepository)
    (hs : s ∈ validStates) (hl : repo.findPlatilloResult = []) :
    (OrderService.updatePlatilloStatus pid iid s repo).1 =
      Except.error (JsError.notFoundError
        ("Platillo con ID " ++ toString iid ++
          " no encontrado en el pedido " ++ toString pid ++ ".")) ∧
    (OrderService.updatePlatilloStatus pid iid s repo).2 =
      [RepoCall.findPlatilloById pid iid] ∧
    ∀ e, RepoCall.updatePlatilloStatus pid iid e ∉
      (OrderService.updatePlatilloStatus pid iid s repo).2 := by
  refine ⟨?_, ?_, ?_⟩ <;>
    simp [OrderService.updatePlatilloStatus, hs, hl, NotFoundError]

/-- C4 witness: the status `"ready"` on a missing item yields NotFound with
only the lookup in the trace. -/
theorem c4_witness :
    "ready" ∈ validStates ∧
    (OrderService.updatePlatilloStatus 1 2 "ready" emptyRepo).1 =
      Except.error (JsError.notFoundError
        "Platillo con ID 2 no encontrado en el pedido 1.") ∧
    (OrderService.updatePlatilloStatus 1 2 "ready" emptyRepo).2 =
      [RepoCall.findPlatilloById 1 2] :=
  ⟨by decide,
    by simpa using (c4_item_not_found 1 2 "ready" emptyRepo (by decide) rfl).1,
    (c4_item_not_found 1 2 "ready" emptyRepo (by decide) rfl).2.1⟩

/-- C5: for a vocabulary-member status, when the item lookup returns a row
but the status write reports zero affected rows, `updatePlatilloStatus`
raises `AppError` with HTTP-equivalent status code 500. -/
theorem c5_zero_affected_rows (pid iid : Nat) (s : String)
    (repo : OrderRepository) (hs : s ∈ validStates)
    (hl : repo.findPlatilloResult ≠ [])
    (hw : repo.updatePlatilloAffectedRows = 0) :
    (OrderService.updatePlatilloStatus pid iid s repo).1 =
      Except.error
        (JsError.appError "No se pudo actualizar el estado del platillo." 500) := by
  have hlen : repo.findPlatilloResult.length ≠ 0 := by
    simpa [List.length_eq_zero] using hl
  simp [OrderService.updatePlatilloStatus, hs, hlen, hw, AppError]

/-- C5 witness: against the oracle whose lookup finds a row but whose write
affects zero rows, the operation raises the 500-coded error. -/
theorem c5_witness :
    "ready" ∈ validStates ∧
    staleRepo.findPlatilloResult ≠ [] ∧
    staleRepo.updatePlatilloAffectedRows = 0 ∧
    (OrderService.updatePlatilloStatus 1 2 "ready" staleRepo).1 =
      Except.error
        (JsError.appError "No se pudo actualizar el estado del platillo." 500) :=
  ⟨by decide, by decide, rfl,
    c5_zero_affected_rows 1 2 "ready" staleRepo (by decide) (by decide) rfl⟩

/-- C6: `getAll` raises `NotFoundError` whenever `findAll` returns an absent
or empty result, even though zero orders is not itself an anomaly; when rows
are returned it yields one `Order` per row, via `Order.fromDB`. -/
theorem c6_getAll (rid : Nat) (repo : OrderRepository) :
    ((repo.findAllResult = none ∨ repo.findAllResult = some []) →
      (OrderService.getAll rid repo).1 =
        Except.error (JsError.notFoundError "No se encontraron pedidos.")) ∧
    (∀ rows, repo.findAllResult = some rows → rows ≠ [] →
      (OrderService.getAll rid repo).1 =
        Except.ok (rows.map Order.fromDB) ∧
      (rows.map Order.fromDB).length = rows.length) := by
  constructor
  · rintro (h | h) <;> simp [OrderService.getAll, h, NotFoundError]
  · intro rows hrows hne
    have hlen : rows.length ≠ 0 := by
      simpa [List.length_eq_zero] using hne
    exact ⟨by simp [OrderService.getAll, hrows, hlen], by simp⟩

/-- C6 witness: an empty store yields NotFound for restaurant 7, and a
one-row store yields exactly one Order. -/
theorem c6_witness :
    emptyRepo.findAllResult = some [] ∧
    (OrderService.getAll 7 emptyRepo).1 =
      Except.error (JsError.notFoundError "No se encontraron pedidos.") ∧
    ((OrderService.getAll 7 staleRepo).1 =
        Except.ok [Order.fromDB { id := 4, nombre_cliente := "bo", estado := "ready" }]) :=
  ⟨rfl,
    (c6_getAll 7 emptyRepo).1 (Or.inr rfl),
    by simpa using ((c6_getAll 7 staleRepo).2
      [{ id := 4, nombre_cliente := "bo", estado := "ready" }] rfl (by decide)).1⟩

/-- C7: `cancelOrder` with no item id forwards `(pedidoId, null)` to the
collaborator (whole-order cancellation) and with a genuine item id forwards
`(pedidoId, itemId)` (item cancellation), whatever the collaborator replies;
a collaborator failure is surfaced as `AppError` whose message carries the
collaborator's message and names `pedido` respectively `platillo`, with the
collaborator's status code, defaulting to 500 when it supplies none. -/
theorem c7_cancelOrder (pid : Nat) (i : Int) (repo : OrderRepository)
    (e : RepoFailure) (hi : i ≠ 0)
    (hr : repo.cancelResult = Except.error e) :
    (∀ r : OrderRepository,
      (OrderService.cancelOrder pid JsVal.null r).2 =
        [RepoCall.cancelOrder pid JsVal.null] ∧
      (OrderService.cancelOrder pid (JsVal.num i) r).2 =
        [RepoCall.cancelOrder pid (JsVal.num i)]) ∧
    (OrderService.cancelOrder pid JsVal.null repo).1 =
      Except.error (JsError.appError
        ("Error al cancelar el pedido: " ++ e.message)
        (orElse500 e.statusCode)) ∧
    (OrderService.cancelOrder pid (JsVal.num i) repo).1 =
      Except.error (JsError.appError
        ("Error al cancelar el platillo: " ++ e.message)
        (orElse500 e.statusCode)) ∧
    (e.statusCode = none → orElse500 e.statusCode = 500) := by
  refine ⟨?_, ?_, ?_, ?_⟩
  · intro r
    constructor <;> · cases hc : r.cancelResult <;>
      simp [OrderService.cancelOrder, hc]
  · simp [OrderService.cancelOrder, hr, jsTruthy, AppError]
  · simp [OrderService.cancelOrder, hr, jsTruthy, hi, AppError]
  · intro h
    simp [h, orElse500]

/-- C7 witness: with a collaborator that fails without a status code, the
whole-order form is labelled `pedido` with code 500, and the item form with
item id 9 is labelled `platillo`. -/
theorem c7_witness :
    emptyRepo.cancelResult =
      Except.error { message := "db down", statusCode := none } ∧
    (OrderService.cancelOrder 1 JsVal.null emptyRepo).1 =
      Except.error
        (JsError.appError "Error al cancelar el pedido: db down" 500) ∧
    (OrderService.cancelOrder 1 (JsVal.num 9) emptyRepo).1 =
      Except.error
        (JsError.appError "Error al cancelar el platillo: db down" 500) :=
  ⟨rfl,
    by simpa using
      (c7_cancelOrder 1 9 emptyRepo
        { message := "db down", statusCode := none } (by decide) rfl).2.1,
    by simpa using
      (c7_cancelOrder 1 9 emptyRepo
        { message := "db down", statusCode := none } (by decide) rfl).2.2.1⟩

/-- C10: when `cancelOrder` is called with a falsy item id (`0`, the empty
string, ...), the id is still forwarded to the collaborator unchanged, but a
collaborator failure is wrapped with the whole-order label `pedido` rather
than `platillo` — the labelling is decided by JS truthiness of the item id,
not by its presence. -/
theorem c10_falsy_item_id (pid : Nat) (v : JsVal) (repo : OrderRepository)
    (e : RepoFailure) (hv : jsTruthy v = false)
    (hr : repo.cancelResult = Except.error e) :
    (OrderService.cancelOrder pid v repo).2 = [RepoCall.cancelOrder pid v] ∧
    (OrderService.cancelOrder pid v repo).1 =
      Except.error (JsError.appError
        ("Error al cancelar el pedido: " ++ e.message)
        (orElse500 e.statusCode)) := by
  constructor <;> simp [OrderService.cancelOrder, hr, hv, AppError]

/-- C10 witness: item id `0` is forwarded as `0` yet the failure message
names the whole-order case, with the collaborator's code 409 preserved. -/
theorem c10_witness :
    jsTruthy (JsVal.num 0) = false ∧
    (OrderService.cancelOrder 1 (JsVal.num 0) staleRepo).2 =
      [RepoCall.cancelOrder 1 (JsVal.num 0)] ∧
    (OrderService.cancelOrder 1 (JsVal.num 0) staleRepo).1 =
      Except.error
        (JsError.appError "Error al cancelar el pedido: conflict" 409) :=
  ⟨by decide,
    (c10_falsy_item_id 1 (JsVal.num 0) staleRepo
      { message := "conflict", statusCode := some 409 } (by decide) rfl).1,
    by simpa using
      (c10_falsy_item_id 1 (JsVal.num 0) staleRepo
        { message := "conflict", statusCode := some 409 } (by decide) rfl).2⟩

/-- C8: every issued cookie is HttpOnly; when the environment flag is
anything other than `development` (including unset), Secure is true and
SameSite is `None`; in `development`, Secure is false and SameSite is `Lax`;
Max-Age equals the configured token expiration; `createJWTCookie` always
uses the cookie name `token`. -/
theorem c8_cookie_attributes (cfg : Config) (env : Option String)
    (name : String) (value : String) (data : List (String × String))
    (now : Nat) :
    (createCookie cfg env name value).httpOnly = true ∧
    (env ≠ some "development" →
      (createCookie cfg env name value).secure = true ∧
      (createCookie cfg env name value).sameSite = "None") ∧
    (env = some "development" →
      (createCookie cfg env name value).secure = false ∧
      (createCookie cfg env name value).sameSite = "Lax") ∧
    (createCookie cfg env name value).maxAge = cfg.jwtExpiration ∧
    (createJWTCookie cfg env data now).name = "token" := by
  refine ⟨rfl, ?_, ?_, rfl, rfl⟩
  · intro h
    constructor <;> simp [createCookie, h]
  · rintro rfl
    constructor <;> simp [createCookie, envFalsy]

/-- C8 witness: with the flag unset the cookie is Secure with SameSite
`None`; in `development` it is not Secure with SameSite `Lax`; the session
cookie is named `token`. -/
theorem c8_witness :
    (createCookie { jwtSecret := "s", jwtExpiration := 3600 } none "token" "v").secure = true ∧
    (createCookie { jwtSecret := "s", jwtExpiration := 3600 } none "token" "v").sameSite = "None" ∧
    (createCookie { jwtSecret := "s", jwtExpiration := 3600 }
        (some "development") "token" "v").secure = false ∧
    (createCookie { jwtSecret := "s", jwtExpiration := 3600 }
        (some "development") "token" "v").sameSite = "Lax" ∧
    (createJWTCookie { jwtSecret := "s", jwtExpiration := 3600 } none
        [("role", "customer")] 0).name = "token" :=
  ⟨((c8_cookie_attributes { jwtSecret := "s", jwtExpiration := 3600 } none
      "token" "v" [("role", "customer")] 0).2.1 (by simp)).1,
    ((c8_cookie_attributes { jwtSecret := "s", jwtExpiration := 3600 } none
      "token" "v" [("role", "customer")] 0).2.1 (by simp)).2,
    ((c8_cookie_attributes { jwtSecret := "s", jwtExpiration := 3600 }
      (some "development") "token" "v" [("role", "customer")] 0).2.2.1 rfl).1,
    ((c8_cookie_attributes { jwtSecret := "s", jwtExpiration := 3600 }
      (some "development") "token" "v" [("role", "customer")] 0).2.2.1 rfl).2,
    (c8_cookie_attributes { jwtSecret := "s", jwtExpiration := 3600 } none
      "token" "v" [("role", "customer")] 0).2.2.2.2⟩

/-- C9: round trip — verifying a token produced by `createJWT` at any time
strictly before the configured expiration has elapsed succeeds (no
Unauthorized failure) and returns a payload containing every given claim. -/
theorem c9_round_trip (cfg : Config) (data : List (String × String))
    (now t : Nat) (h : t < cfg.jwtExpiration) :
    ∃ payload,
      verifyJWT cfg (createJWT cfg data now) (now + t) = Except.ok payload ∧
      ∀ c ∈ data, c ∈ payload := by
  refine ⟨data, ?_, fun c hc => hc⟩
  have : now + t < now + cfg.jwtExpiration := by omega
  simp [verifyJWT, createJWT, this]

/-- C9 witness: the token minted with claims `role: customer` verifies
immediately after creation and the payload carries that claim. -/
theorem c9_witness :
    (0 : Nat) < 3600 ∧
    ∃ payload,
      verifyJWT { jwtSecret := "s", jwtExpiration := 3600 }
          (createJWT { jwtSecret := "s", jwtExpiration := 3600 }
            [("role", "customer")] 5) (5 + 0) =
        Except.ok payload ∧
      ∀ c ∈ [("role", "customer")], c ∈ payload :=
  ⟨by decide,
    c9_round_trip { jwtSecret := "s", jwtExpiration := 3600 }
      [("role", "customer")] 5 0 (by decide)⟩

end Simon
